import Mathlib

/-!
Shallow embedding of the concurrent domain-availability prober of
`src/domain_search.py` (class `DomainSearcher`), together with theorems
settling the specification claims about it.

External network effects (DNS resolution via `socket.gethostbyname`, the
WHOIS registry lookup via `whois.whois`) are modelled by an explicit
environment value describing how each call behaves for the probed string;
Python exceptions are modelled as explicit `Except`/sum values and the
`try/except` handlers of the source are translated as explicit matches on
them.
-/

/-- Result of the `socket.gethostbyname(domain)` call (line 64):
it either resolves, raises `socket.gaierror`, or raises some other
exception (e.g. `UnicodeError` on strings invalid for the transport),
carrying the message of the exception. -/
inductive DnsResult where
  | resolved
  | gaierror
  | raised (msg : String)
deriving Repr, DecidableEq

/-- The `domain_name` attribute of a WHOIS record: Python `None`, a single
string, or a list of strings (the three shapes lines 75-77 test for). -/
inductive NameField where
  | noneV
  | str (s : String)
  | list (l : List String)
deriving Repr, DecidableEq

/-- A WHOIS record as the code reads it: the `domain_name` field, and the
`registrar` / `expiration_date` attributes, each guarded by `hasattr`
(lines 81-84); a present attribute may still hold Python `None`, modelled
by the inner `Option`. -/
structure WhoisRecord where
  domain_name : NameField
  has_registrar : Bool
  registrar : Option String
  has_expiration : Bool
  expiration_date : Option String
deriving Repr, DecidableEq

/-- Result of the `whois.whois(domain)` call (line 72): a record, the
recognized `whois.parser.PywhoisError`, or any other exception with its
message. -/
inductive WhoisResult where
  | record (r : WhoisRecord)
  | pywhoisError
  | raised (msg : String)
deriving Repr, DecidableEq

/-- The external-world behavior of the two network calls made while
probing one candidate string. -/
structure ProbeEnv where
  dns : DnsResult
  whoisR : WhoisResult
deriving Repr, DecidableEq

/-- The result dictionary built by `check_domain_availability`
(lines 53-59): `available` is the tri-state verdict (`some true` =
Available, `some false` = Taken, `none` = Python `None` = Unknown). -/
structure Outcome where
  domain : String
  available : Option Bool
  error : Option String
  registrar : Option String
  expiration_date : Option String
deriving Repr, DecidableEq

/-- Python `str(x)` applied to an optional value: `None` renders as the
four-character string `"None"`; any other value renders as itself (we
model already-rendered values as strings). -/
def pyStr : Option String → String
  | none => "None"
  | some s => s

/-- The emptiness test of lines 75-77: `w.domain_name is None or
(isinstance(w.domain_name, list) and len(w.domain_name) == 0)`.
Note a plain empty string is NOT empty by this test. -/
def nameEmpty : NameField → Bool
  | .noneV => true
  | .str _ => false
  | .list l => l.isEmpty

/-- A Python exception escaping the body of the outer `try` of
`check_domain_availability`: either the recognized
`whois.parser.PywhoisError` or any other exception with its message. -/
inductive PyExc where
  | pywhois
  | other (msg : String)
deriving Repr, DecidableEq

/-- The body of the outer `try` of `check_domain_availability`
(lines 61-84), with exceptions explicit: the inner `try` around DNS
swallows `socket.gaierror` only (lines 63-69), then the WHOIS lookup runs
and its record is classified (lines 71-84). On success it returns the
filled result dictionary. -/
def probeBody (env : ProbeEnv) (domain : String) : Except PyExc Outcome :=
  match env.dns with
  | .raised msg => .error (.other msg)
  | _ =>
    match env.whoisR with
    | .pywhoisError => .error .pywhois
    | .raised msg => .error (.other msg)
    | .record r =>
      if nameEmpty r.domain_name then
        .ok { domain := domain, available := some true, error := none,
              registrar := none, expiration_date := none }
      else
        .ok { domain := domain, available := some false, error := none,
              registrar := if r.has_registrar then r.registrar else none,
              expiration_date :=
                if r.has_expiration then some (pyStr r.expiration_date)
                else none }

/-- `DomainSearcher.check_domain_availability` (lines 52-94): the body
plus its two handlers — `except whois.parser.PywhoisError` flips the
verdict to Available (lines 86-88), `except Exception as e` records the
message and sets the verdict to `None` (lines 89-92). Total: every
exception of the body is handled, so the function always returns an
outcome dictionary. -/
def check_domain_availability (env : ProbeEnv) (domain : String) : Outcome :=
  match probeBody env domain with
  | .ok o => o
  | .error .pywhois =>
      { domain := domain, available := some true, error := none,
        registrar := none, expiration_date := none }
  | .error (.other msg) =>
      { domain := domain, available := none, error := some msg,
        registrar := none, expiration_date := none }

/-- The suffix list configured in `DomainSearcher.__init__`
(lines 31-35). -/
def tlds_to_check : List String := [".com", ".co", ".ai"]

/-- The cross-product loop of `check_domains` (lines 100-103):
base-name-major, suffix-minor order. -/
def domainCombinations (domains tlds : List String) : List String :=
  (domains.map (fun d => tlds.map (fun t => d ++ t))).flatten

/-- `max_workers = min(20, len(domain_combinations))` (line 107). -/
def maxWorkersFor (combos : List String) : Nat :=
  min 20 combos.length

/-- Behavior of one submitted task (one `future`): it either returns an
outcome dictionary or raises, which `future.result()` re-raises at the
collection point (line 121). -/
inductive TaskResult where
  | ok (o : Outcome)
  | exc (msg : String)
deriving Repr, DecidableEq

/-- The per-future `try/except` of `check_domains` (lines 120-133): a
normal result is appended as is; a raised exception is converted to a
synthesized error dictionary for the domain of that future. -/
def futureOutcome (domain : String) : TaskResult → Outcome
  | .ok o => o
  | .exc msg =>
      { domain := domain, available := none, error := some msg,
        registrar := none, expiration_date := none }

/-- The `as_completed` collection loop of `check_domains`
(lines 118-134): futures complete in an arbitrary order, modelled by the
list `order` of indices into the combination list; each completed future
contributes exactly one appended outcome. -/
def collectResults (combos : List String) (task : Nat → TaskResult)
    (order : List Nat) : List Outcome :=
  order.map (fun i => futureOutcome (combos.getD i "") (task i))

/-- `DomainSearcher.check_domains` (lines 96-136): expand the
combinations, compute `max_workers`, construct the pool — the Python
`ThreadPoolExecutor` raises `ValueError` when `max_workers` is 0, which
happens exactly when the combination list is empty — then collect one
outcome per future in completion order. -/
def check_domains (domains tlds : List String) (task : Nat → TaskResult)
    (order : List Nat) : Except String (List Outcome) :=
  let combos := domainCombinations domains tlds
  if maxWorkersFor combos = 0 then
    .error "ValueError: max_workers must be greater than 0"
  else
    .ok (collectResults combos task order)

/-- The definite verdict carried by a WHOIS signal, when there is one:
a record with an empty/absent `domain_name` or the recognized
`PywhoisError` mean Available (`some true`), a record with a non-empty
`domain_name` means Taken (`some false`), and any other raised error is
indefinite (`none`). This mirrors the branch conditions of
lines 72-88. -/
def whoisVerdict : WhoisResult → Option Bool
  | .record r => if nameEmpty r.domain_name then some true else some false
  | .pywhoisError => some true
  | .raised _ => none

/-- One scheduling event of the worker pool: a task starts running on a
worker, or a running task finishes. -/
inductive PoolEvent where
  | start (i : Nat)
  | finish (i : Nat)
deriving Repr, DecidableEq

/-- Number of in-flight tasks after processing the events, starting from
`c` already in flight. -/
def runCount (c : Nat) : List PoolEvent → Nat
  | [] => c
  | .start _ :: rest => runCount (c + 1) rest
  | .finish _ :: rest => runCount (c - 1) rest

/-- A trace is valid for a pool of `w` workers, with `c` tasks currently
in flight, when every `start` happens while strictly fewer than `w` tasks
are in flight (the executor never runs more than `max_workers` tasks at
once) and every `finish` matches a running task. -/
def validTrace (w : Nat) (c : Nat) : List PoolEvent → Bool
  | [] => true
  | .start _ :: rest => decide (c < w) && validTrace w (c + 1) rest
  | .finish _ :: rest => decide (0 < c) && validTrace w (c - 1) rest

/-- The status-label formatting of `_pretty_print_results`
(lines 160-166): the tri-state verdict mapped to a colored label. -/
def statusLabel : Option Bool → String
  | some true => "\x1b[92m" ++ "Available" ++ "\x1b[0m"
  | some false => "\x1b[91m" ++ "Taken" ++ "\x1b[0m"
  | none => "\x1b[93m" ++ "Unknown" ++ "\x1b[0m"

/-- The table built by `_pretty_print_results` (lines 154-168): one
`[domain, status]` row per result, in the order of the result list — the
loop appends rows in iteration order and applies no sorting. -/
def prettyPrintTable (results : List Outcome) : List (List String) :=
  results.map (fun r => [r.domain, statusLabel r.available])

/-- Lexicographic strict comparison of character lists by code point. -/
def charListLt : List Char → List Char → Bool
  | [], [] => false
  | [], _ :: _ => true
  | _ :: _, [] => false
  | a :: as, b :: bs =>
    if a.toNat < b.toNat then true
    else if b.toNat < a.toNat then false
    else charListLt as bs

/-- Lexicographic strict comparison of strings. -/
def strLt (s t : String) : Bool := charListLt s.data t.data

/-- Lexicographic non-strict comparison of strings. -/
def strLe (s t : String) : Bool := strLt s t || s == t

/-- Ordering on (base name, suffix) pairs as the spec words it: by base
name first, then by suffix, lexicographically. Used only to state the
output order claimed by the spec; the source has no counterpart. -/
def pairLe (p q : String × String) : Bool :=
  strLt p.1 q.1 || (p.1 == q.1 && strLe p.2 q.2)

/-- Insert into a `pairLe`-sorted list, keeping it sorted. -/
def insertPair (p : String × String) : List (String × String) →
    List (String × String)
  | [] => [p]
  | q :: rest => if pairLe p q then p :: q :: rest else q :: insertPair p rest

/-- Insertion sort by `pairLe`. -/
def sortPairs : List (String × String) → List (String × String)
  | [] => []
  | p :: rest => insertPair p (sortPairs rest)

/-- Modelled from the spec (the source has no sorting step): the final
collection order the spec claims — all (base, suffix) pairs sorted by
base name then suffix, each rendered as the concatenated candidate
string. -/
def specSortedCandidates (domains tlds : List String) : List String :=
  (sortPairs ((domains.map (fun d => tlds.map (fun t => (d, t)))).flatten)).map
    (fun p => p.1 ++ p.2)

/-- Default outcome used as the fallback of `List.getD` in statements. -/
def dummyOutcome : Outcome :=
  { domain := "", available := none, error := none,
    registrar := none, expiration_date := none }

/-- Unfolding `domainCombinations` at a cons cell. -/
theorem domainCombinations_cons (b : String) (B S : List String) :
    domainCombinations (b :: B) S =
      S.map (fun t => b ++ t) ++ domainCombinations B S := rfl

/-- The cross product has exactly `|B| * |S|` entries. -/
theorem domainCombinations_length (B S : List String) :
    (domainCombinations B S).length = B.length * S.length := by
  induction B with
  | nil => simp [domainCombinations]
  | cons b B ih =>
      simp [domainCombinations_cons, ih, Nat.succ_mul, Nat.add_comm]

/-- Entry `i * |S| + j` of the cross product is `B[i] ++ S[j]`:
base-name-major, suffix-minor order. -/
theorem domainCombinations_getD (B S : List String) (i j : Nat)
    (hi : i < B.length) (hj : j < S.length) :
    (domainCombinations B S).getD (i * S.length + j) "" =
      B.getD i "" ++ S.getD j "" := by
  induction B generalizing i with
  | nil => simp at hi
  | cons b B ih =>
      cases i with
      | zero =>
          rw [domainCombinations_cons, List.getD_eq_getElem?_getD,
            List.getElem?_append_left (by simpa using hj)]
          simp [List.getElem?_map, List.getD_eq_getElem?_getD,
            List.getElem?_eq_getElem hj]
      | succ i =>
          have hi' : i < B.length := by simpa using hi
          rw [domainCombinations_cons]
          have hidx : (i + 1) * S.length + j =
              S.length + (i * S.length + j) := by ring
          rw [hidx, List.getD_eq_getElem?_getD,
            List.getElem?_append_right (by simp)]
          simp only [List.length_map]
          rw [Nat.add_sub_cancel_left, ← List.getD_eq_getElem?_getD]
          simpa using ih i hi'

/-- Path lemma: when DNS does not raise and WHOIS returns a record, the
outcome is determined by the record classification of lines 74-84. -/
theorem check_record (dns : DnsResult) (r : WhoisRecord) (d : String)
    (h : ∀ m, dns ≠ .raised m) :
    check_domain_availability ⟨dns, .record r⟩ d =
      if nameEmpty r.domain_name then
        { domain := d, available := some true, error := none,
          registrar := none, expiration_date := none }
      else
        { domain := d, available := some false, error := none,
          registrar := if r.has_registrar then r.registrar else none,
          expiration_date :=
            if r.has_expiration then some (pyStr r.expiration_date)
            else none } := by
  cases hn : nameEmpty r.domain_name <;> cases dns <;>
    first
      | exact absurd rfl (h _)
      | simp [check_domain_availability, probeBody, hn]

/-- Path lemma: when DNS does not raise and WHOIS raises the recognized
`PywhoisError`, the handler of lines 86-88 yields Available. -/
theorem check_pywhois (dns : DnsResult) (d : String)
    (h : ∀ m, dns ≠ .raised m) :
    check_domain_availability ⟨dns, .pywhoisError⟩ d =
      { domain := d, available := some true, error := none,
        registrar := none, expiration_date := none } := by
  cases dns <;>
    first
      | exact absurd rfl (h _)
      | rfl

/-- Path lemma: when DNS does not raise and WHOIS raises any other
exception, the handler of lines 89-92 yields Unknown with the message. -/
theorem check_whois_raised (dns : DnsResult) (d m : String)
    (h : ∀ m', dns ≠ .raised m') :
    check_domain_availability ⟨dns, .raised m⟩ d =
      { domain := d, available := none, error := some m,
        registrar := none, expiration_date := none } := by
  cases dns <;>
    first
      | exact absurd rfl (h _)
      | rfl

/-- Path lemma: when the DNS call raises anything other than
`socket.gaierror`, the WHOIS step never runs and the handler of
lines 89-92 yields Unknown with the message. -/
theorem check_dns_raised (w : WhoisResult) (d m : String) :
    check_domain_availability ⟨.raised m, w⟩ d =
      { domain := d, available := none, error := some m,
        registrar := none, expiration_date := none } := rfl

/-- C2: for every outcome produced by `check_domain_availability` and
every outcome synthesized by the per-future handler of `check_domains`,
the `available` field is Unknown (`none`) if and only if the `error`
field is set, and the `registrar` and `expiration_date` fields are set
only when `available` is Taken (`some false`). -/
theorem C2_tristate_consistency :
    (∀ (env : ProbeEnv) (d : String),
      ((check_domain_availability env d).available = none ↔
        (check_domain_availability env d).error ≠ none) ∧
      ((check_domain_availability env d).registrar ≠ none →
        (check_domain_availability env d).available = some false) ∧
      ((check_domain_availability env d).expiration_date ≠ none →
        (check_domain_availability env d).available = some false)) ∧
    (∀ (d msg : String),
      ((futureOutcome d (.exc msg)).available = none ↔
        (futureOutcome d (.exc msg)).error ≠ none) ∧
      (futureOutcome d (.exc msg)).registrar = none ∧
      (futureOutcome d (.exc msg)).expiration_date = none) := by
  constructor
  · rintro ⟨dns, w⟩ d
    cases dns with
    | raised m => rw [check_dns_raised]; simp
    | resolved =>
        cases w with
        | record r =>
            rw [check_record _ _ _ (by intro m h; cases h)]
            cases hn : nameEmpty r.domain_name <;> simp [hn]
        | pywhoisError =>
            rw [check_pywhois _ _ (by intro m h; cases h)]; simp
        | raised m =>
            rw [check_whois_raised _ _ _ (by intro m h; cases h)]; simp
    | gaierror =>
        cases w with
        | record r =>
            rw [check_record _ _ _ (by intro m h; cases h)]
            cases hn : nameEmpty r.domain_name <;> simp [hn]
        | pywhoisError =>
            rw [check_pywhois _ _ (by intro m h; cases h)]; simp
        | raised m =>
            rw [check_whois_raised _ _ _ (by intro m h; cases h)]; simp
  · intro d msg
    simp [futureOutcome]

/-- C2 witness: a concrete Unknown outcome has its error explained. -/
theorem C2_tristate_consistency_witness :
    (check_domain_availability
      ⟨DnsResult.resolved, WhoisResult.raised "connection refused"⟩
      "acme.com").error ≠ none :=
  ((C2_tristate_consistency.1
    ⟨DnsResult.resolved, WhoisResult.raised "connection refused"⟩
    "acme.com").1).mp rfl

/-- C3: whenever the WHOIS step yields a definite verdict (non-empty
`domain_name` record means Taken; empty/absent `domain_name` or the
recognized `PywhoisError` means Available), that verdict is the
`available` field of the returned outcome, whether the preceding DNS
resolution succeeded or failed with `gaierror`. -/
theorem C3_whois_authority :
    ∀ (env : ProbeEnv) (d : String) (v : Bool),
      (∀ m, env.dns ≠ .raised m) →
      whoisVerdict env.whoisR = some v →
      (check_domain_availability env d).available = some v := by
  rintro ⟨dns, w⟩ d v hdns hv
  cases w with
  | record r =>
      rw [check_record dns r d hdns]
      cases hn : nameEmpty r.domain_name <;>
        simp [whoisVerdict, hn] at hv ⊢ <;> simp [← hv]
  | pywhoisError =>
      rw [check_pywhois dns d hdns]
      simp [whoisVerdict] at hv
      simp [← hv]
  | raised m => simp [whoisVerdict] at hv

/-- C3 witness: DNS resolves but the subsequent WHOIS record has an
absent registration identifier, and the final verdict is Available. -/
theorem C3_whois_authority_witness :
    (check_domain_availability
      ⟨DnsResult.resolved,
        WhoisResult.record ⟨NameField.noneV, false, none, false, none⟩⟩
      "beta.ai").available = some true :=
  C3_whois_authority
    ⟨DnsResult.resolved,
      WhoisResult.record ⟨NameField.noneV, false, none, false, none⟩⟩
    "beta.ai" true (by intro m h; cases h) rfl

/-- C4: a WHOIS lookup raising the recognized `PywhoisError` yields
Available with no error; a WHOIS lookup raising any other exception, or a
DNS step raising anything other than `gaierror`, yields Unknown with the
error message; and the two error classes never map to the same verdict. -/
theorem C4_error_classes :
    ∀ (d m : String) (dns : DnsResult) (w : WhoisResult),
      (∀ m', dns ≠ .raised m') →
      check_domain_availability ⟨dns, .pywhoisError⟩ d =
        { domain := d, available := some true, error := none,
          registrar := none, expiration_date := none } ∧
      check_domain_availability ⟨dns, .raised m⟩ d =
        { domain := d, available := none, error := some m,
          registrar := none, expiration_date := none } ∧
      check_domain_availability ⟨.raised m, w⟩ d =
        { domain := d, available := none, error := some m,
          registrar := none, expiration_date := none } ∧
      (check_domain_availability ⟨dns, .pywhoisError⟩ d).available ≠
        (check_domain_availability ⟨dns, .raised m⟩ d).available := by
  intro d m dns w hdns
  refine ⟨check_pywhois dns d hdns, check_whois_raised dns d m hdns,
    check_dns_raised w d m, ?_⟩
  rw [check_pywhois dns d hdns, check_whois_raised dns d m hdns]
  simp

/-- C4 witness: at a concrete candidate, the no-match verdict differs
from the transport-error verdict. -/
theorem C4_error_classes_witness :
    (check_domain_availability
      ⟨DnsResult.gaierror, WhoisResult.pywhoisError⟩ "acme.co").available ≠
    (check_domain_availability
      ⟨DnsResult.gaierror, WhoisResult.raised "timed out"⟩
      "acme.co").available :=
  (C4_error_classes "acme.co" "timed out" DnsResult.gaierror
    WhoisResult.pywhoisError (by intro m h; cases h)).2.2.2

/-- C6: `check_domain_availability` is total over arbitrary candidate
strings: the returned outcome always carries the probed string, an
Unknown verdict always comes with an error diagnostic, and even when the
DNS call raises on a string invalid for the transport the function still
returns an outcome dictionary instead of letting the exception escape. -/
theorem C6_probe_total :
    ∀ (env : ProbeEnv) (d : String),
      (check_domain_availability env d).domain = d ∧
      ((check_domain_availability env d).available = none →
        (check_domain_availability env d).error ≠ none) ∧
      (∀ (m : String) (w : WhoisResult),
        check_domain_availability ⟨.raised m, w⟩ d =
          { domain := d, available := none, error := some m,
            registrar := none, expiration_date := none }) := by
  rintro ⟨dns, w⟩ d
  refine ⟨?_, ?_, fun m w2 => check_dns_raised w2 d m⟩
  · cases dns with
    | raised m => rw [check_dns_raised]
    | resolved =>
        cases w with
        | record r =>
            rw [check_record _ _ _ (by intro m h; cases h)]
            cases hn : nameEmpty r.domain_name <;> simp [hn]
        | pywhoisError => rw [check_pywhois _ _ (by intro m h; cases h)]
        | raised m => rw [check_whois_raised _ _ _ (by intro m h; cases h)]
    | gaierror =>
        cases w with
        | record r =>
            rw [check_record _ _ _ (by intro m h; cases h)]
            cases hn : nameEmpty r.domain_name <;> simp [hn]
        | pywhoisError => rw [check_pywhois _ _ (by intro m h; cases h)]
        | raised m => rw [check_whois_raised _ _ _ (by intro m h; cases h)]
  · intro hav
    cases dns with
    | raised m => rw [check_dns_raised]; simp
    | resolved =>
        cases w with
        | record r =>
            rw [check_record _ _ _ (by intro m h; cases h)] at hav ⊢
            cases hn : nameEmpty r.domain_name <;> simp [hn] at hav
        | pywhoisError =>
            rw [check_pywhois _ _ (by intro m h; cases h)] at hav
            simp at hav
        | raised m =>
            rw [check_whois_raised _ _ _ (by intro m h; cases h)]; simp
    | gaierror =>
        cases w with
        | record r =>
            rw [check_record _ _ _ (by intro m h; cases h)] at hav ⊢
            cases hn : nameEmpty r.domain_name <;> simp [hn] at hav
        | pywhoisError =>
            rw [check_pywhois _ _ (by intro m h; cases h)] at hav
            simp at hav
        | raised m =>
            rw [check_whois_raised _ _ _ (by intro m h; cases h)]; simp

/-- C6 witness: a candidate with characters invalid for the transport
(DNS raises a non-gaierror exception) still yields an explained Unknown
outcome. -/
theorem C6_probe_total_witness :
    (check_domain_availability
      ⟨DnsResult.raised "idna encoding failed", WhoisResult.pywhoisError⟩
      "bad domain!").error ≠ none :=
  (C6_probe_total
    ⟨DnsResult.raised "idna encoding failed", WhoisResult.pywhoisError⟩
    "bad domain!").2.1 rfl

/-- C10 counterexample: on the Taken-by-record path the claim says the
`expiration_date` field is always a string; but when the record lacks the
`expiration_date` attribute (`hasattr` false, the `else None` arm of
lines 82-84) the field is the null value even though `available` is
Taken. -/
theorem C10_expiration_str_counterexample :
    nameEmpty (NameField.str "slopgen") = false ∧
    (check_domain_availability
      ⟨DnsResult.gaierror,
        WhoisResult.record
          ⟨NameField.str "slopgen", true, some "NameCorp", false, none⟩⟩
      "slopgen.com").available = some false ∧
    (check_domain_availability
      ⟨DnsResult.gaierror,
        WhoisResult.record
          ⟨NameField.str "slopgen", true, some "NameCorp", false, none⟩⟩
      "slopgen.com").expiration_date = none :=
  ⟨rfl, rfl, rfl⟩

/-- C10 amended: on the Taken-by-record path, the `expiration_date`
field is `str()` of the expiration date of the record whenever the
record has that attribute — so a present-but-`None` expiration date
yields the four-character string `"None"` rather than the null value —
and is null only when the attribute is absent; the `registrar` field is
the registrar of the record when present (possibly null) and null when
absent. -/
theorem C10_expiration_str_amended :
    ∀ (env : ProbeEnv) (d : String) (r : WhoisRecord),
      (∀ m, env.dns ≠ .raised m) →
      env.whoisR = .record r →
      nameEmpty r.domain_name = false →
      (check_domain_availability env d).registrar =
        (if r.has_registrar then r.registrar else none) ∧
      (check_domain_availability env d).expiration_date =
        (if r.has_expiration then some (pyStr r.expiration_date)
         else none) ∧
      (r.has_expiration = true → r.expiration_date = none →
        (check_domain_availability env d).expiration_date =
          some "None") := by
  rintro ⟨dns, w⟩ d r hdns hw hn
  cases hw
  rw [check_record dns r d hdns]
  refine ⟨by simp [hn], by simp [hn], ?_⟩
  intro he hexp
  simp [hn, he, hexp, pyStr]

/-- C10 witness: a record whose `expiration_date` attribute is present
but holds Python `None` yields the string `"None"`. -/
theorem C10_expiration_str_witness :
    (check_domain_availability
      ⟨DnsResult.gaierror,
        WhoisResult.record
          ⟨NameField.str "slopgen", true, some "NameCorp", true, none⟩⟩
      "slopgen.ai").expiration_date = some "None" :=
  (C10_expiration_str_amended
    ⟨DnsResult.gaierror,
      WhoisResult.record
        ⟨NameField.str "slopgen", true, some "NameCorp", true, none⟩⟩
    "slopgen.ai"
    ⟨NameField.str "slopgen", true, some "NameCorp", true, none⟩
    (by intro m h; cases h) rfl rfl).2.2 rfl rfl

/-- With a non-empty base list and a non-empty suffix list the pool size
is positive, so `check_domains` reaches the collection loop. -/
theorem check_domains_eq_ok (B S : List String) (task : Nat → TaskResult)
    (order : List Nat) (hB : B ≠ []) (hS : S ≠ []) :
    check_domains B S task order =
      .ok (collectResults (domainCombinations B S) task order) := by
  have h1 : B.length ≠ 0 := fun h => hB (List.length_eq_zero.mp h)
  have h2 : S.length ≠ 0 := fun h => hS (List.length_eq_zero.mp h)
  have hne : maxWorkersFor (domainCombinations B S) ≠ 0 := by
    intro h
    simp only [maxWorkersFor] at h
    rcases Nat.min_eq_zero_iff.mp h with h20 | hlen
    · exact absurd h20 (by decide)
    · rw [domainCombinations_length] at hlen
      rcases Nat.mul_eq_zero.mp hlen with h0 | h0
      · exact h1 h0
      · exact h2 h0
  simp only [check_domains]
  rw [if_neg hne]

/-- C1: for every non-empty base list and non-empty suffix list,
`check_domains` returns exactly `|B| * |S|` outcomes — up to completion
order, exactly one outcome per index of the combination list, which is
the cross product in base-name-major, suffix-minor order — whatever the
individual probes do. -/
theorem C1_cross_product_totality :
    ∀ (B S : List String) (task : Nat → TaskResult) (order : List Nat),
      B ≠ [] → S ≠ [] →
      order.Perm (List.range (domainCombinations B S).length) →
      ∃ rs, check_domains B S task order = .ok rs ∧
        rs.length = B.length * S.length ∧
        rs.Perm ((List.range (domainCombinations B S).length).map
          (fun i => futureOutcome ((domainCombinations B S).getD i "")
            (task i))) ∧
        ∀ i j, i < B.length → j < S.length →
          (domainCombinations B S).getD (i * S.length + j) "" =
            B.getD i "" ++ S.getD j "" := by
  intro B S task order hB hS hperm
  refine ⟨collectResults (domainCombinations B S) task order,
    check_domains_eq_ok B S task order hB hS, ?_, ?_, ?_⟩
  · simp [collectResults, hperm.length_eq, domainCombinations_length]
  · exact hperm.map _
  · intro i j hi hj
    exact domainCombinations_getD B S i j hi hj

/-- C1 witness: a concrete batch, collected out of submission order,
still yields one outcome per (base, suffix) pair. -/
theorem C1_cross_product_totality_witness :
    ∃ rs, check_domains ["acme"] tlds_to_check
        (fun _ => TaskResult.exc "boom") [2, 0, 1] = .ok rs ∧
      rs.length = List.length ["acme"] * List.length tlds_to_check ∧
      rs.Perm ((List.range
          (domainCombinations ["acme"] tlds_to_check).length).map
        (fun i => futureOutcome
          ((domainCombinations ["acme"] tlds_to_check).getD i "")
          ((fun _ => TaskResult.exc "boom") i))) ∧
      ∀ i j, i < List.length ["acme"] →
        j < List.length tlds_to_check →
        (domainCombinations ["acme"] tlds_to_check).getD
            (i * List.length tlds_to_check + j) "" =
          List.getD ["acme"] i "" ++ List.getD tlds_to_check j "" :=
  C1_cross_product_totality ["acme"] tlds_to_check
    (fun _ => TaskResult.exc "boom") [2, 0, 1]
    (by decide) (by decide) (by decide)

/-- C5: if the task of exactly one combination index raises instead of
returning, `check_domains` still succeeds, the outcome count is
unchanged, the entry collected for that index is the synthesized Unknown
outcome carrying the exception message, and every other position of the
result list is exactly what it is in the run where that task does not
raise. -/
theorem C5_fault_isolation :
    ∀ (B S : List String) (task task2 : Nat → TaskResult)
      (order : List Nat) (k : Nat) (msg : String),
      B ≠ [] → S ≠ [] →
      task2 k = .exc msg →
      (∀ i, i ≠ k → task2 i = task i) →
      ∃ rs rs2,
        check_domains B S task order = .ok rs ∧
        check_domains B S task2 order = .ok rs2 ∧
        rs2.length = rs.length ∧
        ∀ (j i : Nat), order[j]? = some i →
          (i = k → rs2[j]? = some
            ({ domain := (domainCombinations B S).getD k "",
               available := none, error := some msg,
               registrar := none, expiration_date := none } : Outcome)) ∧
          (i ≠ k → rs2[j]? = rs[j]?) := by
  intro B S task task2 order k msg hB hS hk hother
  refine ⟨collectResults (domainCombinations B S) task order,
    collectResults (domainCombinations B S) task2 order,
    check_domains_eq_ok B S task order hB hS,
    check_domains_eq_ok B S task2 order hB hS, by simp [collectResults],
    ?_⟩
  intro j i hji
  constructor
  · rintro rfl
    simp [collectResults, List.getElem?_map, hji, hk, futureOutcome]
  · intro hik
    simp [collectResults, List.getElem?_map, hji, hother i hik]

/-- C5 witness: one injected failure at index 1 of a concrete batch. -/
theorem C5_fault_isolation_witness :
    ∃ rs rs2,
      check_domains ["a"] tlds_to_check
        (fun _ => TaskResult.ok dummyOutcome) [0, 1, 2] = .ok rs ∧
      check_domains ["a"] tlds_to_check
        (fun i => if i = 1 then TaskResult.exc "boom"
          else TaskResult.ok dummyOutcome) [0, 1, 2] = .ok rs2 ∧
      rs2.length = rs.length ∧
      ∀ (j i : Nat), [0, 1, 2][j]? = some i →
        (i = 1 → rs2[j]? = some
          ({ domain := (domainCombinations ["a"] tlds_to_check).getD 1 "",
             available := none, error := some "boom",
             registrar := none, expiration_date := none } : Outcome)) ∧
        (i ≠ 1 → rs2[j]? = rs[j]?) :=
  C5_fault_isolation ["a"] tlds_to_check
    (fun _ => TaskResult.ok dummyOutcome)
    (fun i => if i = 1 then TaskResult.exc "boom"
      else TaskResult.ok dummyOutcome)
    [0, 1, 2] 1 "boom" (by decide) (by decide) (by simp)
    (by intro i h; simp [h])

/-- C9: with an empty base-name list the batch fails up front — the pool
size computes to 0 and the pool constructor raises, before any outcome is
produced — and with any non-empty base-name list and the configured
suffixes it never fails. -/
theorem C9_empty_input :
    (∀ (S : List String) (task : Nat → TaskResult) (order : List Nat),
      check_domains [] S task order =
        .error "ValueError: max_workers must be greater than 0") ∧
    (∀ (B : List String) (task : Nat → TaskResult) (order : List Nat),
      B ≠ [] →
      ∃ rs, check_domains B tlds_to_check task order = .ok rs) := by
  constructor
  · intro S task order
    rfl
  · intro B task order hB
    exact ⟨_, check_domains_eq_ok B tlds_to_check task order hB
      (by decide)⟩

/-- C9 witness: a concrete non-empty base list succeeds. -/
theorem C9_empty_input_witness :
    ∃ rs, check_domains ["acme"] tlds_to_check
      (fun _ => TaskResult.ok dummyOutcome) [0, 1, 2] = .ok rs :=
  C9_empty_input.2 ["acme"] (fun _ => TaskResult.ok dummyOutcome)
    [0, 1, 2] (by decide)

/-- In any valid schedule of a `w`-worker pool, the in-flight count never
exceeds `w`, at any point of the trace. -/
theorem validTrace_runCount_le (tr : List PoolEvent) :
    ∀ (w c : Nat), c ≤ w → validTrace w c tr = true →
      ∀ n, runCount c (tr.take n) ≤ w := by
  induction tr with
  | nil =>
      intro w c hc _ n
      simpa [runCount] using hc
  | cons e rest ih =>
      intro w c hc hv n
      cases n with
      | zero => simpa [runCount] using hc
      | succ n =>
          cases e with
          | start i =>
              simp only [validTrace, Bool.and_eq_true, decide_eq_true_eq]
                at hv
              simpa [List.take, runCount] using
                ih w (c + 1) hv.1 hv.2 n
          | finish i =>
              simp only [validTrace, Bool.and_eq_true, decide_eq_true_eq]
                at hv
              simpa [List.take, runCount] using
                ih w (c - 1) (le_trans (Nat.sub_le c 1) hc) hv.2 n

/-- C7: the pool of `check_domains` is constructed with
`max_workers = min(20, N)` where `N = |B| * |S|` is the number of
candidates, and along any schedule that the pool admits, the number of
simultaneously in-flight probes never exceeds `min(20, N)`. -/
theorem C7_concurrency_ceiling :
    ∀ (B S : List String) (tr : List PoolEvent),
      validTrace (maxWorkersFor (domainCombinations B S)) 0 tr = true →
      maxWorkersFor (domainCombinations B S) =
        min 20 (B.length * S.length) ∧
      ∀ n, runCount 0 (tr.take n) ≤ min 20 (B.length * S.length) := by
  intro B S tr hv
  have hw : maxWorkersFor (domainCombinations B S) =
      min 20 (B.length * S.length) := by
    simp [maxWorkersFor, domainCombinations_length]
  refine ⟨hw, fun n => ?_⟩
  rw [← hw]
  exact validTrace_runCount_le tr _ 0 (Nat.zero_le _) hv n

/-- C7 witness: a concrete schedule of a 3-candidate batch stays within
the ceiling. -/
theorem C7_concurrency_ceiling_witness :
    runCount 0 ([PoolEvent.start 0, PoolEvent.start 1, PoolEvent.finish 0,
      PoolEvent.start 2].take 3) ≤
      min 20 (List.length ["acme"] * List.length tlds_to_check) :=
  (C7_concurrency_ceiling ["acme"] tlds_to_check
    [PoolEvent.start 0, PoolEvent.start 1, PoolEvent.finish 0,
      PoolEvent.start 2] (by decide)).2 3

/-- C8 counterexample: on the batch with base names `["b", "a"]` and the
configured suffixes, with every probe resolving to Available, the output
of `check_domains` under the submission-order completion `[0..5]` is not
the (base, suffix)-sorted collection the claim requires, and the reversed
completion order yields a different output — the collection loop appends
in completion order and nothing sorts it. -/
theorem C8_sorted_output_counterexample :
    ((check_domains ["b", "a"] tlds_to_check
        (fun i => TaskResult.ok (check_domain_availability
          ⟨DnsResult.gaierror, WhoisResult.pywhoisError⟩
          ((domainCombinations ["b", "a"] tlds_to_check).getD i "")))
        [0, 1, 2, 3, 4, 5]).toOption.map
        (fun rs => rs.map Outcome.domain) ≠
      some (specSortedCandidates ["b", "a"] tlds_to_check)) ∧
    (check_domains ["b", "a"] tlds_to_check
        (fun i => TaskResult.ok (check_domain_availability
          ⟨DnsResult.gaierror, WhoisResult.pywhoisError⟩
          ((domainCombinations ["b", "a"] tlds_to_check).getD i "")))
        [0, 1, 2, 3, 4, 5]).toOption ≠
      (check_domains ["b", "a"] tlds_to_check
        (fun i => TaskResult.ok (check_domain_availability
          ⟨DnsResult.gaierror, WhoisResult.pywhoisError⟩
          ((domainCombinations ["b", "a"] tlds_to_check).getD i "")))
        [5, 4, 3, 2, 1, 0]).toOption := by
  constructor <;> decide

/-- C8 amended: the final result collection of `check_domains` is in
probe-completion order — the collection loop appends each outcome as its
future completes and nothing sorts the list — and `_pretty_print_results`
preserves the order it is given; so the output order follows the
completion order rather than a fixed (base, suffix)-sorted order. -/
theorem C8_completion_order :
    ∀ (combos : List String) (task : Nat → TaskResult) (order : List Nat)
      (rs : List Outcome),
      (∀ i o, task i = .ok o → o.domain = combos.getD i "") →
      (collectResults combos task order).map Outcome.domain =
        order.map (fun i => combos.getD i "") ∧
      (prettyPrintTable rs).map (fun row => row.getD 0 "") =
        rs.map Outcome.domain := by
  intro combos task order rs htask
  constructor
  · simp only [collectResults, List.map_map]
    have hfun : ∀ i : Nat,
        (futureOutcome (combos.getD i "") (task i)).domain =
          combos.getD i "" := by
      intro i
      cases ht : task i with
      | ok o => simpa [futureOutcome, ht] using htask i o ht
      | exc m => simp [futureOutcome, ht]
    have : (Outcome.domain ∘ fun i =>
        futureOutcome (combos.getD i "") (task i)) =
        fun i => combos.getD i "" := funext hfun
    rw [this]
  · simp only [prettyPrintTable, List.map_map]
    rfl

/-- C8 amended witness: a concrete reversed completion order is exactly
the reversed candidate order in the output. -/
theorem C8_completion_order_witness :
    (collectResults (domainCombinations ["b", "a"] tlds_to_check)
      (fun i => TaskResult.ok (check_domain_availability
        ⟨DnsResult.gaierror, WhoisResult.pywhoisError⟩
        ((domainCombinations ["b", "a"] tlds_to_check).getD i "")))
      [5, 4, 3, 2, 1, 0]).map Outcome.domain =
      [5, 4, 3, 2, 1, 0].map
        (fun i => (domainCombinations ["b", "a"] tlds_to_check).getD
          i "") :=
  (C8_completion_order (domainCombinations ["b", "a"] tlds_to_check)
    (fun i => TaskResult.ok (check_domain_availability
      ⟨DnsResult.gaierror, WhoisResult.pywhoisError⟩
      ((domainCombinations ["b", "a"] tlds_to_check).getD i "")))
    [5, 4, 3, 2, 1, 0] []
    (by intro i o h; injection h with h2; rw [← h2]; rfl)).1
